import Mathlib

/-!
Shallow embedding of the `domeneshop-js` typed API client (the current
fetch-based implementation: `DomeneshopError`, `DomeneshopClient`, its
`request` pipeline and the endpoint methods).  JavaScript primitives the
code relies on (`btoa`, `encodeURIComponent`, `JSON.stringify`, URL query
serialization) are embedded as executable Lean functions.  The HTTP
transport (`fetch`) and `JSON.parse` are external library primitives and
are passed in as function parameters, mirroring the code's use of them.
-/

namespace Domeneshop

/-- JSON values exchanged with the API.  JavaScript numbers are modelled as
integers, which covers every numeric field the client sends (ids, ttl,
priorities, ...). Object fields are kept in insertion order, as JavaScript
objects and `JSON.stringify` do. -/
inductive Json where
  | null : Json
  | bool (b : Bool) : Json
  | num (n : Int) : Json
  | str (s : String) : Json
  | arr (elems : List Json) : Json
  | obj (fields : List (String × Json)) : Json
deriving Repr

/-- Hexadecimal digit characters, uppercase. -/
def hexDigits : List Char := "0123456789ABCDEF".toList

/-- One escaped character of a JSON string literal, as `JSON.stringify`
produces it: `"` and `\` are backslash-escaped, control characters use the
short escapes or a `\u00XX` escape, everything else is kept verbatim. -/
def escapeChar (c : Char) : String :=
  if c = Char.ofNat 34 then "\\\""
  else if c = Char.ofNat 92 then "\\\\"
  else if c = Char.ofNat 8 then "\\b"
  else if c = Char.ofNat 9 then "\\t"
  else if c = Char.ofNat 10 then "\\n"
  else if c = Char.ofNat 12 then "\\f"
  else if c = Char.ofNat 13 then "\\r"
  else if c.toNat < 32 then
    "\\u00" ++ String.mk [hexDigits.getD (c.toNat / 16) (Char.ofNat 48), hexDigits.getD (c.toNat % 16) (Char.ofNat 48)]
  else String.singleton c

/-- A JSON string literal with surrounding quotes, as `JSON.stringify`
produces it. -/
def escapeString (s : String) : String :=
  "\"" ++ String.join (s.data.map escapeChar) ++ "\""

mutual

/-- Serialization `JSON.stringify` of a JSON value (no spacing, the default). -/
def Json.stringify : Json → String
  | .null => "null"
  | .bool b => if b then "true" else "false"
  | .num n => toString n
  | .str s => escapeString s
  | .arr xs => "[" ++ stringifyElems xs ++ "]"
  | .obj fs => "\x7b" ++ stringifyFields fs ++ "\x7d"

/-- Comma-separated serialization of JSON array elements. -/
def stringifyElems : List Json → String
  | [] => ""
  | [x] => Json.stringify x
  | x :: y :: xs => Json.stringify x ++ "," ++ stringifyElems (y :: xs)

/-- Comma-separated serialization of JSON object fields. -/
def stringifyFields : List (String × Json) → String
  | [] => ""
  | [(k, v)] => escapeString k ++ ":" ++ Json.stringify v
  | (k, v) :: f :: fs => escapeString k ++ ":" ++ Json.stringify v ++ "," ++ stringifyFields (f :: fs)

end

/-- The base64 alphabet used by `btoa`. -/
def b64Alphabet : List Char :=
  "ABCDEFGHIJKLMNOPQRSTUVWXYZabcdefghijklmnopqrstuvwxyz0123456789+/".toList

/-- The base64 digit for a 6-bit value. -/
def b64c (n : Nat) : Char := b64Alphabet.getD n (Char.ofNat 65)

/-- Standard base64 of a byte sequence, with `=` padding, three bytes at a
time. -/
def base64Chunks : List Nat → String
  | [] => ""
  | [a] => String.mk [b64c (a / 4), b64c (a % 4 * 16)] ++ "=="
  | [a, b] => String.mk [b64c (a / 4), b64c (a % 4 * 16 + b / 16), b64c (b % 16 * 4)] ++ "="
  | a :: b :: c :: rest =>
    String.mk [b64c (a / 4), b64c (a % 4 * 16 + b / 16), b64c (b % 16 * 4 + c / 64), b64c (c % 64)]
      ++ base64Chunks rest

/-- JavaScript `btoa`: base64 of the code points of a latin-1 string (the
client only ever feeds it ASCII credential strings). -/
def btoa (s : String) : String := base64Chunks (s.data.map Char.toNat)

/-- UTF-8 bytes of a character. -/
def utf8Bytes (c : Char) : List Nat :=
  let n := c.toNat
  if n < 128 then [n]
  else if n < 2048 then [192 + n / 64, 128 + n % 64]
  else if n < 65536 then [224 + n / 4096, 128 + n / 64 % 64, 128 + n % 64]
  else [240 + n / 262144, 128 + n / 4096 % 64, 128 + n / 64 % 64, 128 + n % 64]

/-- Percent-escape `%XX` of one byte, uppercase hex. -/
def byteHex (n : Nat) : String :=
  String.mk [Char.ofNat 37, hexDigits.getD (n / 16) (Char.ofNat 48), hexDigits.getD (n % 16) (Char.ofNat 48)]

/-- Characters `encodeURIComponent` leaves unescaped:
`A-Z a-z 0-9 - _ . ! ~ * ' ( )`. -/
def uriUnescaped (c : Char) : Bool :=
  c.isAlpha || c.isDigit || c = Char.ofNat 45 || c = Char.ofNat 95 || c = Char.ofNat 46 ||
    c = Char.ofNat 33 || c = Char.ofNat 126 || c = Char.ofNat 42 || c = Char.ofNat 39 ||
    c = Char.ofNat 40 || c = Char.ofNat 41

/-- JavaScript `encodeURIComponent`: unescaped characters kept, everything
else percent-encoded byte by byte from its UTF-8 encoding. -/
def encodeURIComponent (s : String) : String :=
  String.join (s.data.map fun c =>
    if uriUnescaped c then String.singleton c
    else String.join ((utf8Bytes c).map byteHex))

/-- Characters that the form serializer of
`URLSearchParams` leaves unescaped: `A-Z a-z 0-9 * - . _`. -/
def formUnescaped (c : Char) : Bool :=
  c.isAlpha || c.isDigit || c = Char.ofNat 42 || c = Char.ofNat 45 || c = Char.ofNat 46 ||
    c = Char.ofNat 95

/-- Escaping of one `application/x-www-form-urlencoded` component, as
`URLSearchParams` serializes keys and values: space becomes `+`, unescaped
characters are kept, everything else is percent-encoded from UTF-8. -/
def formEncode (s : String) : String :=
  String.join (s.data.map fun c =>
    if c = Char.ofNat 32 then "+"
    else if formUnescaped c then String.singleton c
    else String.join ((utf8Bytes c).map byteHex))

/-- Whether the character list `pat` occurs at the start of `s`. -/
def startsWithChars : List Char → List Char → Bool
  | _, [] => true
  | [], _ :: _ => false
  | c :: cs, p :: ps => c = p && startsWithChars cs ps

/-- Whether the character list `pat` occurs contiguously anywhere in `s`. -/
def containsChars : List Char → List Char → Bool
  | [], pat => pat.isEmpty
  | c :: cs, pat => startsWithChars (c :: cs) pat || containsChars cs pat

/-- Whether `pat` occurs as a contiguous substring of `s`. -/
def containsSubstr (s pat : String) : Bool := containsChars s.data pat.data

/-- The default API base URL (`DEFAULT_BASE_URL` in the source). -/
def DEFAULT_BASE_URL : String := "https://api.domeneshop.no/v0"

/-- Constructor options of `DomeneshopClient`: mandatory `token` and
`secret`, optional `baseUrl` override. -/
structure DomeneshopClientOptions where
  token : String
  secret : String
  baseUrl : Option String := none

/-- An error response body as stored in `DomeneshopError.body`: either the
JSON-decoded body or the raw response text. -/
inductive BodyVal where
  | json (j : Json) : BodyVal
  | text (t : String) : BodyVal
deriving Repr

/-- A thrown JavaScript error value.  `error` is an opaque error such as a
`TypeError` from `fetch`, a `SyntaxError` from `JSON.parse`, or a plain
`Error` from the constructor.  `domeneshop` is the library's
`DomeneshopError` with its `message`, `status` and optional `body` fields. -/
inductive JsError where
  | error (name message : String) : JsError
  | domeneshop (message : String) (status : Nat) (body : Option BodyVal) : JsError
deriving Repr

/-- The client state: the resolved base URL and the header record built at
construction (holding only the `Authorization` entry). -/
structure DomeneshopClient where
  baseUrl : String
  headers : List (String × String)
deriving Repr

/-- Assignment `record[k] = v` on a string-keyed record kept as an ordered
association list: replaces the value in place when the key exists,
otherwise appends the new entry. -/
def assocSet (l : List (String × String)) (k v : String) : List (String × String) :=
  if l.any (fun p => p.1 = k) then l.map (fun p => if p.1 = k then (k, v) else p)
  else l ++ [(k, v)]

/-- First value bound to key `k` in a string-keyed record. -/
def assocGet (l : List (String × String)) (k : String) : Option String :=
  match l with
  | [] => none
  | (k2, v) :: rest => if k2 = k then some v else assocGet rest k

/-- The `DomeneshopClient` constructor: rejects an empty (falsy) token or
secret with a plain `Error`, otherwise resolves the base URL and builds the
`Authorization: Basic <btoa(token:secret)>` header once. -/
def mkDomeneshopClient (options : DomeneshopClientOptions) : Except JsError DomeneshopClient :=
  if options.token = "" then .error (.error "Error" "token is required")
  else if options.secret = "" then .error (.error "Error" "secret is required")
  else .ok
    { baseUrl := options.baseUrl.getD DEFAULT_BASE_URL
      headers := [("Authorization", "Basic " ++ btoa (options.token ++ ":" ++ options.secret))] }

/-- The `url.searchParams.set` loop of `request`: entries whose value is
`undefined` (`none`) are skipped, the rest are assigned in order. -/
def applyParams (params : List (String × Option String)) : List (String × String) :=
  params.foldl
    (fun acc kv =>
      match kv.2 with
      | none => acc
      | some v => assocSet acc kv.1 v) []

/-- Serialization of `URLSearchParams`: `k=v` pairs joined with `&`, keys and
values form-encoded. -/
def queryString (qs : List (String × String)) : String :=
  String.intercalate "&" (qs.map fun p => formEncode p.1 ++ "=" ++ formEncode p.2)

/-- Composition `new URL(baseUrl + path)` with the defined query parameters assigned,
then `url.toString()`: the query (preceded by `?`) is appended only when at
least one parameter was set. -/
def buildUrl (baseUrl path : String) (params : List (String × Option String)) : String :=
  let qs := applyParams params
  baseUrl ++ path ++ (if qs.isEmpty then "" else "?" ++ queryString qs)

/-- The arguments `request` hands to `fetch`: the serialized URL, the HTTP
method, the header record, and the JSON-serialized body when one was
supplied. -/
structure FetchArgs where
  url : String
  method : String
  headers : List (String × String)
  body : Option String
deriving Repr

/-- The request-building half of `DomeneshopClient.request`: compose the
URL from base URL, path and defined query parameters; copy the client's
headers and add `Content-Type: application/json` exactly when a body is
supplied; serialize the body with `JSON.stringify` when present. -/
def DomeneshopClient.buildRequest (c : DomeneshopClient) (method path : String)
    (params : List (String × Option String)) (body : Option Json) : FetchArgs :=
  { url := buildUrl c.baseUrl path params
    method := method
    headers :=
      match body with
      | some _ => assocSet c.headers "Content-Type" "application/json"
      | none => c.headers
    body := body.map Json.stringify }

/-- A settled `fetch` response: status, status text, and the outcomes of
awaiting `response.json()` and `response.text()` (each may reject with a
JavaScript error). -/
structure Response where
  status : Nat
  statusText : String
  jsonResult : Except JsError Json
  textResult : Except JsError String

/-- Flag `response.ok` of the Fetch standard: status in the range 200-299. -/
def Response.isOk (r : Response) : Bool := 200 ≤ r.status && r.status ≤ 299

/-- The error-body recovery of the failure branch: try `response.json()`,
fall back to `response.text()`, fall back to leaving the body absent
(both rejections are caught and ignored). -/
def errorBody (r : Response) : Option BodyVal :=
  match r.jsonResult with
  | .ok j => some (.json j)
  | .error _ =>
    match r.textResult with
    | .ok t => some (.text t)
    | .error _ => none

/-- The response half of `DomeneshopClient.request`, applied to the settled
outcome of the `fetch` call.  A `fetch` rejection propagates as-is (the
`await` is not inside any try/catch).  A non-ok response throws
`DomeneshopError` with the formatted message, the status and the recovered
body.  A 204 returns no value; so does an empty body text.  Otherwise the
text is given to `JSON.parse`, whose own error propagates as-is. -/
def runFetched (fetched : Except JsError Response)
    (jsonParse : String → Except JsError Json) : Except JsError (Option Json) :=
  match fetched with
  | .error e => .error e
  | .ok response =>
    if !response.isOk then
      .error (.domeneshop
        ("Domeneshop API error: " ++ toString response.status ++ " " ++ response.statusText)
        response.status (errorBody response))
    else if response.status = 204 then
      .ok none
    else
      match response.textResult with
      | .error e => .error e
      | .ok text =>
        if text = "" then .ok none
        else
          match jsonParse text with
          | .error e => .error e
          | .ok j => .ok (some j)

/-- Method `DomeneshopClient.request`: build the fetch arguments, perform the
exchange through the supplied transport, and decode the outcome. -/
def DomeneshopClient.request (c : DomeneshopClient) (method path : String)
    (params : List (String × Option String)) (body : Option Json)
    (fetch : FetchArgs → Except JsError Response)
    (jsonParse : String → Except JsError Json) : Except JsError (Option Json) :=
  runFetched (fetch (c.buildRequest method path params body)) jsonParse

/-- Filter of `listDomains`. -/
structure ListDomainsParams where
  domain : Option String := none

/-- Filters of `listDnsRecords`.  The record `type` is carried as its
string literal. -/
structure ListDnsRecordsParams where
  host : Option String := none
  type : Option String := none

/-- Parameters of `updateDynDns`: mandatory `hostname`, optional `myip`. -/
structure UpdateDynDnsParams where
  hostname : String
  myip : Option String := none

/-- Filter of `listInvoices`.  The status is carried as its string
literal. -/
structure ListInvoicesParams where
  status : Option String := none

/-- One HTTP forward: host, iframe flag, target URL. -/
structure HttpForward where
  host : String
  frame : Bool
  url : String

/-- The runtime value of an `HttpForwardData` argument as a JSON object
(fields in declaration order). -/
def HttpForward.toJson (f : HttpForward) : Json :=
  .obj [("host", .str f.host), ("frame", .bool f.frame), ("url", .str f.url)]

/-- The variant of a DNS record: the `type` discriminator together with the
type-specific extra fields of the `DnsRecord` union (`priority` for MX;
`priority`/`weight`/`port` for SRV; `usage`/`selector`/`dtype` for TLSA;
`tag`/`alg`/`digest` for DS; `flags`/`tag` for CAA; none for the rest). -/
inductive DnsRecordVariant where
  | A : DnsRecordVariant
  | AAAA : DnsRecordVariant
  | ANAME : DnsRecordVariant
  | CNAME : DnsRecordVariant
  | NS : DnsRecordVariant
  | TXT : DnsRecordVariant
  | MX (priority : Int) : DnsRecordVariant
  | SRV (priority weight port : Int) : DnsRecordVariant
  | TLSA (usage selector dtype : Int) : DnsRecordVariant
  | DS (tag alg : Int) (digest : String) : DnsRecordVariant
  | CAA (flags : Int) (tag : String) : DnsRecordVariant

/-- The `type` string literal of a DNS record variant. -/
def DnsRecordVariant.typeName : DnsRecordVariant → String
  | .A => "A"
  | .AAAA => "AAAA"
  | .ANAME => "ANAME"
  | .CNAME => "CNAME"
  | .NS => "NS"
  | .TXT => "TXT"
  | .MX _ => "MX"
  | .SRV _ _ _ => "SRV"
  | .TLSA _ _ _ => "TLSA"
  | .DS _ _ _ => "DS"
  | .CAA _ _ => "CAA"

/-- The type-specific extra JSON fields of a DNS record variant. -/
def DnsRecordVariant.extraFields : DnsRecordVariant → List (String × Json)
  | .MX p => [("priority", .num p)]
  | .SRV p w pt => [("priority", .num p), ("weight", .num w), ("port", .num pt)]
  | .TLSA u s d => [("usage", .num u), ("selector", .num s), ("dtype", .num d)]
  | .DS t a dg => [("tag", .num t), ("alg", .num a), ("digest", .str dg)]
  | .CAA f t => [("flags", .num f), ("tag", .str t)]
  | _ => []

/-- A `DnsRecordData` value: the create/update input shape of a DNS record.
It has no `id` field; `ttl` is optional and `none` means the caller omitted
the key entirely. -/
structure DnsRecordData where
  host : String
  variant : DnsRecordVariant
  data : String
  ttl : Option Int := none

/-- The runtime value of a `DnsRecordData` argument as a JSON object: the
common fields, the `ttl` key only when the caller supplied one, then the
variant's extra fields. -/
def DnsRecordData.toJson (r : DnsRecordData) : Json :=
  .obj ([("host", .str r.host), ("type", .str r.variant.typeName), ("data", .str r.data)]
    ++ (match r.ttl with
        | some t => [("ttl", Json.num t)]
        | none => [])
    ++ r.variant.extraFields)

/-- Key lookup in a JSON object (first match); `none` on any other JSON
value or a missing key. -/
def Json.lookupKey : Json → String → Option Json
  | .obj fs, k => lookupField fs k
  | _, _ => none
where
  lookupField : List (String × Json) → String → Option Json
    | [], _ => none
    | (k2, v) :: rest, k => if k2 = k then some v else lookupField rest k

/-- Whether a JSON object carries a field with key `k`. -/
def Json.hasKey (j : Json) (k : String) : Bool := (j.lookupKey k).isSome

/-- Outgoing request of `listDomains(params?)`: `GET /domains`, the
optional `domain` filter as a query parameter. -/
def DomeneshopClient.listDomainsArgs (c : DomeneshopClient)
    (params : Option ListDomainsParams) : FetchArgs :=
  c.buildRequest "GET" "/domains" [("domain", params.bind ListDomainsParams.domain)] none

/-- Outgoing request of `getDomain(domainId)`. -/
def DomeneshopClient.getDomainArgs (c : DomeneshopClient) (domainId : Nat) : FetchArgs :=
  c.buildRequest "GET" ("/domains/" ++ toString domainId) [] none

/-- Outgoing request of `listDnsRecords(domainId, params?)`. -/
def DomeneshopClient.listDnsRecordsArgs (c : DomeneshopClient) (domainId : Nat)
    (params : Option ListDnsRecordsParams) : FetchArgs :=
  c.buildRequest "GET" ("/domains/" ++ toString domainId ++ "/dns")
    [("host", params.bind ListDnsRecordsParams.host),
     ("type", params.bind ListDnsRecordsParams.type)] none

/-- Outgoing request of `createDnsRecord(domainId, record)`. -/
def DomeneshopClient.createDnsRecordArgs (c : DomeneshopClient) (domainId : Nat)
    (record : DnsRecordData) : FetchArgs :=
  c.buildRequest "POST" ("/domains/" ++ toString domainId ++ "/dns") [] (some record.toJson)

/-- Outgoing request of `getDnsRecord(domainId, recordId)`. -/
def DomeneshopClient.getDnsRecordArgs (c : DomeneshopClient) (domainId recordId : Nat) : FetchArgs :=
  c.buildRequest "GET" ("/domains/" ++ toString domainId ++ "/dns/" ++ toString recordId) [] none

/-- Outgoing request of `updateDnsRecord(domainId, recordId, record)`. -/
def DomeneshopClient.updateDnsRecordArgs (c : DomeneshopClient) (domainId recordId : Nat)
    (record : DnsRecordData) : FetchArgs :=
  c.buildRequest "PUT" ("/domains/" ++ toString domainId ++ "/dns/" ++ toString recordId) []
    (some record.toJson)

/-- Outgoing request of `deleteDnsRecord(domainId, recordId)`. -/
def DomeneshopClient.deleteDnsRecordArgs (c : DomeneshopClient) (domainId recordId : Nat) :
    FetchArgs :=
  c.buildRequest "DELETE" ("/domains/" ++ toString domainId ++ "/dns/" ++ toString recordId) [] none

/-- Outgoing request of `updateDynDns(params)`: a `GET` with `hostname`
always present and `myip` optional. -/
def DomeneshopClient.updateDynDnsArgs (c : DomeneshopClient) (params : UpdateDynDnsParams) :
    FetchArgs :=
  c.buildRequest "GET" "/dyndns/update"
    [("hostname", some params.hostname), ("myip", params.myip)] none

/-- Outgoing request of `listForwards(domainId)`. -/
def DomeneshopClient.listForwardsArgs (c : DomeneshopClient) (domainId : Nat) : FetchArgs :=
  c.buildRequest "GET" ("/domains/" ++ toString domainId ++ "/forwards/") [] none

/-- Outgoing request of `createForward(domainId, forward)`. -/
def DomeneshopClient.createForwardArgs (c : DomeneshopClient) (domainId : Nat)
    (forward : HttpForward) : FetchArgs :=
  c.buildRequest "POST" ("/domains/" ++ toString domainId ++ "/forwards/") [] (some forward.toJson)

/-- Outgoing request of `getForward(domainId, host)`: the host path segment
is percent-encoded with `encodeURIComponent`. -/
def DomeneshopClient.getForwardArgs (c : DomeneshopClient) (domainId : Nat) (host : String) :
    FetchArgs :=
  c.buildRequest "GET"
    ("/domains/" ++ toString domainId ++ "/forwards/" ++ encodeURIComponent host) [] none

/-- Outgoing request of `updateForward(domainId, host, forward)`. -/
def DomeneshopClient.updateForwardArgs (c : DomeneshopClient) (domainId : Nat) (host : String)
    (forward : HttpForward) : FetchArgs :=
  c.buildRequest "PUT"
    ("/domains/" ++ toString domainId ++ "/forwards/" ++ encodeURIComponent host) []
    (some forward.toJson)

/-- Outgoing request of `deleteForward(domainId, host)`: the host path
segment is percent-encoded with `encodeURIComponent`. -/
def DomeneshopClient.deleteForwardArgs (c : DomeneshopClient) (domainId : Nat) (host : String) :
    FetchArgs :=
  c.buildRequest "DELETE"
    ("/domains/" ++ toString domainId ++ "/forwards/" ++ encodeURIComponent host) [] none

/-- Outgoing request of `listInvoices(params?)`. -/
def DomeneshopClient.listInvoicesArgs (c : DomeneshopClient)
    (params : Option ListInvoicesParams) : FetchArgs :=
  c.buildRequest "GET" "/invoices" [("status", params.bind ListInvoicesParams.status)] none

/-- Outgoing request of `getInvoice(invoiceId)`. -/
def DomeneshopClient.getInvoiceArgs (c : DomeneshopClient) (invoiceId : Nat) : FetchArgs :=
  c.buildRequest "GET" ("/invoices/" ++ toString invoiceId) [] none

/-- Method `listDomains` through the full pipeline. -/
def DomeneshopClient.listDomains (c : DomeneshopClient) (params : Option ListDomainsParams)
    (fetch : FetchArgs → Except JsError Response)
    (jsonParse : String → Except JsError Json) : Except JsError (Option Json) :=
  c.request "GET" "/domains" [("domain", params.bind ListDomainsParams.domain)] none fetch jsonParse

/-- Method `getDomain` through the full pipeline. -/
def DomeneshopClient.getDomain (c : DomeneshopClient) (domainId : Nat)
    (fetch : FetchArgs → Except JsError Response)
    (jsonParse : String → Except JsError Json) : Except JsError (Option Json) :=
  c.request "GET" ("/domains/" ++ toString domainId) [] none fetch jsonParse

/-- A successfully constructed client has the resolved base URL and exactly
the one `Authorization` header computed by `btoa`. -/
theorem mkDomeneshopClient_ok (opts : DomeneshopClientOptions) (c : DomeneshopClient)
    (h : mkDomeneshopClient opts = .ok c) :
    c = { baseUrl := opts.baseUrl.getD DEFAULT_BASE_URL
          headers := [("Authorization", "Basic " ++ btoa (opts.token ++ ":" ++ opts.secret))] } := by
  unfold mkDomeneshopClient at h
  split at h
  · exact absurd h (by simp)
  · split at h
    · exact absurd h (by simp)
    · exact (Except.ok.inj h).symm

/-- Keys after `assocSet`: the old keys plus (possibly) the assigned key. -/
theorem assocSet_keys (l : List (String × String)) (k' v k : String) :
    k ∈ (assocSet l k' v).map Prod.fst ↔ k ∈ l.map Prod.fst ∨ k = k' := by
  unfold assocSet
  split
  · next h =>
    have hmap : (l.map (fun p => if p.1 = k' then (k', v) else p)).map Prod.fst
        = l.map Prod.fst := by
      rw [List.map_map]
      apply List.map_congr_left
      intro p _
      by_cases hp : p.1 = k' <;> simp [hp]
    rw [hmap]
    constructor
    · exact Or.inl
    · rintro (h1 | rfl)
      · exact h1
      · rcases List.any_eq_true.mp h with ⟨p, hp, hpk⟩
        simp only [decide_eq_true_eq] at hpk
        exact List.mem_map.mpr ⟨p, hp, hpk⟩
  · simp [or_comm]

/-- Keys of the assigned query parameters: exactly the keys that appear in
the input with a defined (non-`undefined`) value. -/
theorem applyParams_keys (params : List (String × Option String)) (k : String) :
    k ∈ (applyParams params).map Prod.fst ↔ ∃ v, (k, some v) ∈ params := by
  have general : ∀ (ps : List (String × Option String)) (acc : List (String × String)),
      k ∈ ((ps.foldl
          (fun acc kv =>
            match kv.2 with
            | none => acc
            | some v => assocSet acc kv.1 v) acc)).map Prod.fst
        ↔ k ∈ acc.map Prod.fst ∨ ∃ v, (k, some v) ∈ ps := by
    intro ps
    induction ps with
    | nil => simp
    | cons kv rest ih =>
      intro acc
      rcases kv with ⟨k1, ov⟩
      cases ov with
      | none =>
        simp only [List.foldl_cons, ih]
        constructor
        · rintro (h1 | ⟨v, hv⟩)
          · exact Or.inl h1
          · exact Or.inr ⟨v, List.mem_cons_of_mem _ hv⟩
        · rintro (h1 | ⟨v, hv⟩)
          · exact Or.inl h1
          · rcases List.mem_cons.mp hv with heq | hmem
            · exact absurd heq (by simp)
            · exact Or.inr ⟨v, hmem⟩
      | some v0 =>
        simp only [List.foldl_cons, ih, assocSet_keys]
        constructor
        · rintro ((h1 | rfl) | ⟨v, hv⟩)
          · exact Or.inl h1
          · exact Or.inr ⟨v0, List.mem_cons_self _ _⟩
          · exact Or.inr ⟨v, List.mem_cons_of_mem _ hv⟩
        · rintro (h1 | ⟨v, hv⟩)
          · exact Or.inl (Or.inl h1)
          · rcases List.mem_cons.mp hv with heq | hmem
            · exact Or.inl (Or.inr (congrArg Prod.fst heq))
            · exact Or.inr ⟨v, hmem⟩
  simpa using general params []

/-- A list starts with itself followed by anything. -/
theorem startsWithChars_self (pat rest : List Char) :
    startsWithChars (pat ++ rest) pat = true := by
  induction pat with
  | nil => cases rest <;> simp [startsWithChars]
  | cons c cs ih => simp [startsWithChars, ih]

/-- A pattern at the start of a list is contained in it. -/
theorem containsChars_of_startsWith (s pat : List Char) (h : startsWithChars s pat = true) :
    containsChars s pat = true := by
  cases s with
  | nil =>
    cases pat with
    | nil => simp [containsChars]
    | cons p ps => simp [startsWithChars] at h
  | cons c cs => simp [containsChars, h]

/-- Containment survives prepending. -/
theorem containsChars_append_left (a s pat : List Char) (h : containsChars s pat = true) :
    containsChars (a ++ s) pat = true := by
  induction a with
  | nil => simpa using h
  | cons c cs ih => simp [containsChars, ih]

/-- A string of the shape `x ++ pat ++ y` contains `pat`. -/
theorem containsSubstr_middle (x pat y : String) :
    containsSubstr (x ++ pat ++ y) pat = true := by
  unfold containsSubstr
  rw [String.data_append, String.data_append, List.append_assoc]
  exact containsChars_append_left _ _ _
    (containsChars_of_startsWith _ _ (startsWithChars_self _ _))

/-- C3: for every client constructed with token `t` and secret `s`, every
request built by the pipeline (hence by every endpoint method) carries an
`Authorization` header equal to `"Basic "` followed by the base64 encoding
of `t ++ ":" ++ s`, and this header value is identical across any two calls
on the same client. -/
theorem auth_header_basic_btoa (opts : DomeneshopClientOptions) (c : DomeneshopClient)
    (h : mkDomeneshopClient opts = .ok c)
    (method path : String) (params : List (String × Option String)) (body : Option Json) :
    assocGet (c.buildRequest method path params body).headers "Authorization"
        = some ("Basic " ++ btoa (opts.token ++ ":" ++ opts.secret)) ∧
      ∀ (method2 path2 : String) (params2 : List (String × Option String)) (body2 : Option Json),
        assocGet (c.buildRequest method path params body).headers "Authorization"
          = assocGet (c.buildRequest method2 path2 params2 body2).headers "Authorization" := by
  have hc := mkDomeneshopClient_ok opts c h
  subst hc
  constructor
  · cases body <;> simp [DomeneshopClient.buildRequest, assocSet, assocGet]
  · intro method2 path2 params2 body2
    cases body <;> cases body2 <;> simp [DomeneshopClient.buildRequest, assocSet, assocGet]

/-- C3 witness at token `"t"`, secret `"s"`. -/
theorem auth_header_basic_btoa_witness :
    assocGet ((DomeneshopClient.mk "https://api.domeneshop.no/v0"
          [("Authorization", "Basic dDpz")]).buildRequest "GET" "/domains" [] none).headers
        "Authorization" = some ("Basic " ++ btoa ("t" ++ ":" ++ "s")) :=
  (auth_header_basic_btoa { token := "t", secret := "s" } _ rfl "GET" "/domains" [] none).1

/-- C2: for every constructed client, a built request carries a
`Content-Type: application/json` header if and only if a request body was
supplied, and a supplied body is serialized with `JSON.stringify`.  In
particular every GET (and bodiless DELETE) endpoint method carries no
`Content-Type` header, and every body-carrying endpoint method carries the
header together with the JSON-serialized body. -/
theorem content_type_iff_body (opts : DomeneshopClientOptions) (c : DomeneshopClient)
    (h : mkDomeneshopClient opts = .ok c) :
    (∀ (method path : String) (params : List (String × Option String)) (body : Option Json),
        (assocGet (c.buildRequest method path params body).headers "Content-Type"
            = some "application/json" ↔ body ≠ none) ∧
        (c.buildRequest method path params body).body = body.map Json.stringify) ∧
    (∀ params, (c.listDomainsArgs params).method = "GET" ∧
        assocGet (c.listDomainsArgs params).headers "Content-Type" = none) ∧
    (∀ d, (c.getDomainArgs d).method = "GET" ∧
        assocGet (c.getDomainArgs d).headers "Content-Type" = none) ∧
    (∀ d params, (c.listDnsRecordsArgs d params).method = "GET" ∧
        assocGet (c.listDnsRecordsArgs d params).headers "Content-Type" = none) ∧
    (∀ d rid, (c.getDnsRecordArgs d rid).method = "GET" ∧
        assocGet (c.getDnsRecordArgs d rid).headers "Content-Type" = none) ∧
    (∀ d rid, (c.deleteDnsRecordArgs d rid).method = "DELETE" ∧
        assocGet (c.deleteDnsRecordArgs d rid).headers "Content-Type" = none) ∧
    (∀ params, (c.updateDynDnsArgs params).method = "GET" ∧
        assocGet (c.updateDynDnsArgs params).headers "Content-Type" = none) ∧
    (∀ d, (c.listForwardsArgs d).method = "GET" ∧
        assocGet (c.listForwardsArgs d).headers "Content-Type" = none) ∧
    (∀ d host, (c.getForwardArgs d host).method = "GET" ∧
        assocGet (c.getForwardArgs d host).headers "Content-Type" = none) ∧
    (∀ d host, (c.deleteForwardArgs d host).method = "DELETE" ∧
        assocGet (c.deleteForwardArgs d host).headers "Content-Type" = none) ∧
    (∀ params, (c.listInvoicesArgs params).method = "GET" ∧
        assocGet (c.listInvoicesArgs params).headers "Content-Type" = none) ∧
    (∀ i, (c.getInvoiceArgs i).method = "GET" ∧
        assocGet (c.getInvoiceArgs i).headers "Content-Type" = none) ∧
    (∀ d r, assocGet (c.createDnsRecordArgs d r).headers "Content-Type"
          = some "application/json" ∧
        (c.createDnsRecordArgs d r).body = some r.toJson.stringify) ∧
    (∀ d rid r, assocGet (c.updateDnsRecordArgs d rid r).headers "Content-Type"
          = some "application/json" ∧
        (c.updateDnsRecordArgs d rid r).body = some r.toJson.stringify) ∧
    (∀ d f, assocGet (c.createForwardArgs d f).headers "Content-Type"
          = some "application/json" ∧
        (c.createForwardArgs d f).body = some f.toJson.stringify) ∧
    (∀ d host f, assocGet (c.updateForwardArgs d host f).headers "Content-Type"
          = some "application/json" ∧
        (c.updateForwardArgs d host f).body = some f.toJson.stringify) := by
  have hc := mkDomeneshopClient_ok opts c h
  subst hc
  refine ⟨fun method path params body => ?_, ?_, ?_, ?_, ?_, ?_, ?_, ?_, ?_, ?_, ?_, ?_, ?_, ?_, ?_, ?_⟩
  · cases body <;>
      simp [DomeneshopClient.buildRequest, assocSet, assocGet]
  all_goals
    intros
    simp [DomeneshopClient.listDomainsArgs, DomeneshopClient.getDomainArgs,
        DomeneshopClient.listDnsRecordsArgs, DomeneshopClient.getDnsRecordArgs,
        DomeneshopClient.deleteDnsRecordArgs, DomeneshopClient.updateDynDnsArgs,
        DomeneshopClient.listForwardsArgs, DomeneshopClient.getForwardArgs,
        DomeneshopClient.deleteForwardArgs, DomeneshopClient.listInvoicesArgs,
        DomeneshopClient.getInvoiceArgs, DomeneshopClient.createDnsRecordArgs,
        DomeneshopClient.updateDnsRecordArgs, DomeneshopClient.createForwardArgs,
        DomeneshopClient.updateForwardArgs,
        DomeneshopClient.buildRequest, assocSet, assocGet]

/-- C2 witness: a GET (`listDomains`) carries no `Content-Type`; a POST
with a body (`createDnsRecord`) carries `application/json`. -/
theorem content_type_iff_body_witness :
    assocGet ((DomeneshopClient.mk "https://api.domeneshop.no/v0"
            [("Authorization", "Basic dDpz")]).listDomainsArgs none).headers "Content-Type"
        = none ∧
      assocGet ((DomeneshopClient.mk "https://api.domeneshop.no/v0"
            [("Authorization", "Basic dDpz")]).createDnsRecordArgs 1
          { host := "test", variant := .A, data := "5.6.7.8" }).headers "Content-Type"
        = some "application/json" :=
  ⟨((content_type_iff_body { token := "t", secret := "s" } _ rfl).2.1 none).2,
    ((content_type_iff_body { token := "t", secret := "s" } _ rfl).2.2.2.2.2.2.2.2.2.2.2.2.1 1
      { host := "test", variant := .A, data := "5.6.7.8" }).1⟩

/-- C4: a query-parameter entry whose value is absent (`undefined`) is
omitted from the URL entirely — a key appears in the assigned parameters
iff some defined value was supplied for it.  In particular `listDomains()`
with no filter produces a URL with no `domain=` fragment at all, while
`listDomains({domain:"example.no"})` produces a URL whose query is
`domain=example.no`. -/
theorem query_absent_omitted :
    (∀ (params : List (String × Option String)) (k : String),
        k ∈ (applyParams params).map Prod.fst ↔ ∃ v, (k, some v) ∈ params) ∧
    ∀ (opts : DomeneshopClientOptions) (c : DomeneshopClient),
      mkDomeneshopClient opts = .ok c → opts.baseUrl = none →
        (c.listDomainsArgs none).url = "https://api.domeneshop.no/v0/domains" ∧
        containsSubstr (c.listDomainsArgs none).url "domain=" = false ∧
        (c.listDomainsArgs (some { domain := some "example.no" })).url
          = "https://api.domeneshop.no/v0/domains?domain=example.no" := by
  refine ⟨applyParams_keys, fun opts c h hb => ?_⟩
  have hc := mkDomeneshopClient_ok opts c h
  subst hc
  rw [hb]
  refine ⟨?_, ?_, ?_⟩
  · show buildUrl DEFAULT_BASE_URL "/domains" [("domain", none)]
      = "https://api.domeneshop.no/v0/domains"
    decide
  · show containsSubstr (buildUrl DEFAULT_BASE_URL "/domains" [("domain", none)]) "domain="
      = false
    decide
  · show buildUrl DEFAULT_BASE_URL "/domains" [("domain", some "example.no")]
      = "https://api.domeneshop.no/v0/domains?domain=example.no"
    decide

/-- C4 witness at a concrete client. -/
theorem query_absent_omitted_witness :
    ((DomeneshopClient.mk "https://api.domeneshop.no/v0"
          [("Authorization", "Basic dDpz")]).listDomainsArgs none).url
        = "https://api.domeneshop.no/v0/domains" ∧
      containsSubstr ((DomeneshopClient.mk "https://api.domeneshop.no/v0"
            [("Authorization", "Basic dDpz")]).listDomainsArgs none).url "domain=" = false :=
  ⟨(query_absent_omitted.2 { token := "t", secret := "s" } _ rfl rfl).1,
    (query_absent_omitted.2 { token := "t", secret := "s" } _ rfl rfl).2.1⟩

/-- C10: a query-parameter entry carrying the empty string (as opposed to
an absent value) is not omitted: its key is kept among the assigned
parameters, and `listDomains({domain:""})` produces a URL ending in
`domain=` with an empty value. -/
theorem query_empty_string_kept :
    (∀ (params : List (String × Option String)) (k : String),
        (k, some "") ∈ params → k ∈ (applyParams params).map Prod.fst) ∧
    ∀ (opts : DomeneshopClientOptions) (c : DomeneshopClient),
      mkDomeneshopClient opts = .ok c → opts.baseUrl = none →
        (c.listDomainsArgs (some { domain := some "" })).url
            = "https://api.domeneshop.no/v0/domains?domain=" ∧
        containsSubstr (c.listDomainsArgs (some { domain := some "" })).url "domain=" = true := by
  refine ⟨fun params k hk => (applyParams_keys params k).mpr ⟨"", hk⟩, fun opts c h hb => ?_⟩
  have hc := mkDomeneshopClient_ok opts c h
  subst hc
  rw [hb]
  refine ⟨?_, ?_⟩
  · show buildUrl DEFAULT_BASE_URL "/domains" [("domain", some "")]
      = "https://api.domeneshop.no/v0/domains?domain="
    decide
  · show containsSubstr (buildUrl DEFAULT_BASE_URL "/domains" [("domain", some "")]) "domain="
      = true
    decide

/-- C10 witness at a concrete client. -/
theorem query_empty_string_kept_witness :
    ((DomeneshopClient.mk "https://api.domeneshop.no/v0"
          [("Authorization", "Basic dDpz")]).listDomainsArgs (some { domain := some "" })).url
        = "https://api.domeneshop.no/v0/domains?domain=" ∧
      "domain" ∈ (applyParams [("domain", some "")]).map Prod.fst :=
  ⟨(query_empty_string_kept.2 { token := "t", secret := "s" } _ rfl rfl).1,
    query_empty_string_kept.1 [("domain", some "")] "domain" (List.mem_singleton.mpr rfl)⟩

/-- C7: the forward host supplied as a path segment is percent-encoded with
`encodeURIComponent` before interpolation, for both `getForward` and
`deleteForward`; in particular host `"@"` yields a request path ending in
`"%40"`. -/
theorem forward_host_percent_encoded (c : DomeneshopClient) (domainId : Nat) (host : String) :
    (c.getForwardArgs domainId host).url
        = c.baseUrl ++ "/domains/" ++ toString domainId ++ "/forwards/"
            ++ encodeURIComponent host ∧
    (c.deleteForwardArgs domainId host).url
        = c.baseUrl ++ "/domains/" ++ toString domainId ++ "/forwards/"
            ++ encodeURIComponent host ∧
    encodeURIComponent "@" = "%40" ∧
    (c.getForwardArgs domainId "@").url
        = (c.baseUrl ++ "/domains/" ++ toString domainId ++ "/forwards/") ++ "%40" ∧
    (c.deleteForwardArgs domainId "@").url
        = (c.baseUrl ++ "/domains/" ++ toString domainId ++ "/forwards/") ++ "%40" := by
  have henc : encodeURIComponent "@" = "%40" := by decide
  refine ⟨?_, ?_, henc, ?_, ?_⟩ <;>
    simp [DomeneshopClient.getForwardArgs, DomeneshopClient.deleteForwardArgs,
      DomeneshopClient.buildRequest, buildUrl, applyParams, String.append_assoc, henc]

/-- C6: a DNS record create/update call serializes its record argument with
`JSON.stringify`; the serialized object carries a `ttl` field exactly equal
to the supplied value when one was given, and carries no `ttl` key at all
when the caller omitted it. -/
theorem dns_ttl_roundtrip (c : DomeneshopClient) (domainId recordId : Nat) (r : DnsRecordData) :
    (c.createDnsRecordArgs domainId r).body = some r.toJson.stringify ∧
    (c.updateDnsRecordArgs domainId recordId r).body = some r.toJson.stringify ∧
    (∀ t, r.ttl = some t → r.toJson.lookupKey "ttl" = some (.num t)) ∧
    (r.ttl = none → r.toJson.hasKey "ttl" = false) := by
  obtain ⟨host, variant, dat, ttl⟩ := r
  refine ⟨rfl, rfl, fun t ht => ?_, fun ht => ?_⟩
  · have ht2 : ttl = some t := ht
    subst ht2
    cases variant <;>
      simp [DnsRecordData.toJson, Json.lookupKey, Json.lookupKey.lookupField,
        DnsRecordVariant.typeName, DnsRecordVariant.extraFields]
  · have ht2 : ttl = none := ht
    subst ht2
    cases variant <;>
      simp [DnsRecordData.toJson, Json.hasKey, Json.lookupKey, Json.lookupKey.lookupField,
        DnsRecordVariant.typeName, DnsRecordVariant.extraFields]

/-- C6 witness: the A record `{host:"test", type:"A", data:"5.6.7.8"}` with
`ttl:600` serializes with a `ttl` field equal to `600`; without `ttl` the
serialized body carries no `ttl` key. -/
theorem dns_ttl_roundtrip_witness :
    (DnsRecordData.toJson
          { host := "test", variant := .A, data := "5.6.7.8", ttl := some 600 }).lookupKey "ttl"
        = some (.num 600) ∧
      (DnsRecordData.toJson
          { host := "test", variant := .A, data := "5.6.7.8" }).hasKey "ttl" = false :=
  ⟨(dns_ttl_roundtrip (DomeneshopClient.mk "https://api.domeneshop.no/v0" []) 1 1
        { host := "test", variant := .A, data := "5.6.7.8", ttl := some 600 }).2.2.1 600 rfl,
    (dns_ttl_roundtrip (DomeneshopClient.mk "https://api.domeneshop.no/v0" []) 1 1
        { host := "test", variant := .A, data := "5.6.7.8" }).2.2.2 rfl⟩

/-- C1: a non-2xx response makes the pipeline throw exactly one
`DomeneshopError` whose `status` equals the HTTP status code, whose message
is the formatted string (hence contains the numeric status and the status
text), and whose `body` is the JSON-decoded body when `response.json()`
succeeds, the raw text when only `response.text()` succeeds, and absent
when neither body read succeeds. -/
theorem non2xx_throws_domeneshop_error (r : Response)
    (jsonParse : String → Except JsError Json) (h : r.isOk = false) :
    runFetched (.ok r) jsonParse
        = .error (.domeneshop
            ("Domeneshop API error: " ++ toString r.status ++ " " ++ r.statusText)
            r.status (errorBody r)) ∧
    containsSubstr ("Domeneshop API error: " ++ toString r.status ++ " " ++ r.statusText)
        (toString r.status) = true ∧
    containsSubstr ("Domeneshop API error: " ++ toString r.status ++ " " ++ r.statusText)
        r.statusText = true ∧
    (∀ j, r.jsonResult = .ok j → errorBody r = some (.json j)) ∧
    (∀ e t, r.jsonResult = .error e → r.textResult = .ok t → errorBody r = some (.text t)) ∧
    (∀ e e2, r.jsonResult = .error e → r.textResult = .error e2 → errorBody r = none) := by
  refine ⟨by simp [runFetched, h], ?_, ?_, ?_, ?_, ?_⟩
  · have := containsSubstr_middle "Domeneshop API error: " (toString r.status)
      (" " ++ r.statusText)
    simpa [String.append_assoc] using this
  · have := containsSubstr_middle ("Domeneshop API error: " ++ toString r.status ++ " ")
      r.statusText ""
    simpa [String.append_assoc] using this
  · intro j hj
    simp [errorBody, hj]
  · intro e t hj ht
    simp [errorBody, hj, ht]
  · intro e e2 hj ht
    simp [errorBody, hj, ht]

/-- C1 witness: a 404 `Not Found` with a JSON body, a 500 with a plain-text
body, and a 502 with an unreadable body. -/
theorem non2xx_throws_domeneshop_error_witness :
    runFetched
        (.ok { status := 404, statusText := "Not Found",
               jsonResult := .ok (.obj [("error", .str "Not found")]),
               textResult := .ok "\x7b\"error\":\"Not found\"\x7d" })
        (fun s => .error (.error "SyntaxError" s))
      = .error (.domeneshop "Domeneshop API error: 404 Not Found" 404
          (some (.json (.obj [("error", .str "Not found")])))) ∧
    runFetched
        (.ok { status := 500, statusText := "Internal Server Error",
               jsonResult := .error (.error "SyntaxError" "not json"),
               textResult := .ok "plain text error" })
        (fun s => .error (.error "SyntaxError" s))
      = .error (.domeneshop "Domeneshop API error: 500 Internal Server Error" 500
          (some (.text "plain text error"))) ∧
    runFetched
        (.ok { status := 502, statusText := "Bad Gateway",
               jsonResult := .error (.error "TypeError" "no body"),
               textResult := .error (.error "TypeError" "no body") })
        (fun s => .error (.error "SyntaxError" s))
      = .error (.domeneshop "Domeneshop API error: 502 Bad Gateway" 502 none) := by
  refine ⟨?_, ?_, ?_⟩
  · exact (non2xx_throws_domeneshop_error
      { status := 404, statusText := "Not Found",
        jsonResult := .ok (.obj [("error", .str "Not found")]),
        textResult := .ok "\x7b\"error\":\"Not found\"\x7d" } _ rfl).1
  · exact (non2xx_throws_domeneshop_error
      { status := 500, statusText := "Internal Server Error",
        jsonResult := .error (.error "SyntaxError" "not json"),
        textResult := .ok "plain text error" } _ rfl).1
  · exact (non2xx_throws_domeneshop_error
      { status := 502, statusText := "Bad Gateway",
        jsonResult := .error (.error "TypeError" "no body"),
        textResult := .error (.error "TypeError" "no body") } _ rfl).1

/-- C5: a 204 response, and any 2xx response whose body text is empty,
yields the absent result `none` — no JSON decoding is attempted (the
outcome holds for every possible `jsonParse`, so no decode error can be
raised). -/
theorem status204_or_empty_body_yields_none (r : Response)
    (jsonParse : String → Except JsError Json) :
    (r.status = 204 → runFetched (.ok r) jsonParse = .ok none) ∧
    (r.isOk = true → r.textResult = .ok "" → runFetched (.ok r) jsonParse = .ok none) := by
  constructor
  · intro h
    simp [runFetched, Response.isOk, h]
  · intro hok htext
    by_cases h204 : r.status = 204 <;> simp [runFetched, hok, htext, h204]

/-- C5 witness: a 204 with no readable body, and a 200 with an empty body
text, both yield `none` under a `jsonParse` that always fails. -/
theorem status204_or_empty_body_yields_none_witness :
    runFetched
        (.ok { status := 204, statusText := "No Content",
               jsonResult := .error (.error "TypeError" "no body"),
               textResult := .ok "" })
        (fun s => .error (.error "SyntaxError" s)) = .ok none ∧
    runFetched
        (.ok { status := 200, statusText := "OK",
               jsonResult := .error (.error "TypeError" "no body"),
               textResult := .ok "" })
        (fun s => .error (.error "SyntaxError" s)) = .ok none :=
  ⟨(status204_or_empty_body_yields_none
      { status := 204, statusText := "No Content",
        jsonResult := .error (.error "TypeError" "no body"), textResult := .ok "" }
      (fun s => .error (.error "SyntaxError" s))).1 rfl,
    (status204_or_empty_body_yields_none
      { status := 200, statusText := "OK",
        jsonResult := .error (.error "TypeError" "no body"), textResult := .ok "" }
      (fun s => .error (.error "SyntaxError" s))).2 rfl rfl⟩

/-- C9: on the success path (2xx, not 204, non-empty body text), a failing
`JSON.parse` makes the pipeline throw the raw parse error itself — the
plain-text fallback exists only on the non-2xx failure path. -/
theorem success_path_parse_error_propagates (r : Response)
    (jsonParse : String → Except JsError Json) (text : String) (e : JsError)
    (hok : r.isOk = true) (h204 : r.status ≠ 204) (htext : r.textResult = .ok text)
    (hne : text ≠ "") (hparse : jsonParse text = .error e) :
    runFetched (.ok r) jsonParse = .error e := by
  simp [runFetched, hok, h204, htext, hne, hparse]

/-- C9 witness: a 200 whose body is the non-JSON text `"not json"`. -/
theorem success_path_parse_error_propagates_witness :
    runFetched
        (.ok { status := 200, statusText := "OK",
               jsonResult := .error (.error "TypeError" "consumed"),
               textResult := .ok "not json" })
        (fun s => .error (.error "SyntaxError" s))
      = .error (.error "SyntaxError" "not json") :=
  success_path_parse_error_propagates
    { status := 200, statusText := "OK",
      jsonResult := .error (.error "TypeError" "consumed"), textResult := .ok "not json" }
    (fun s => .error (.error "SyntaxError" s)) "not json"
    (.error "SyntaxError" "not json") rfl (by decide) rfl (by decide) rfl

/-- C8: a transport-level rejection of the `fetch` call propagates to the
caller as exactly the same error value — the pipeline neither catches,
wraps, reclassifies nor replaces it. -/
theorem transport_error_propagates (c : DomeneshopClient) (method path : String)
    (params : List (String × Option String)) (body : Option Json)
    (fetch : FetchArgs → Except JsError Response)
    (jsonParse : String → Except JsError Json) (e : JsError)
    (h : fetch (c.buildRequest method path params body) = .error e) :
    c.request method path params body fetch jsonParse = .error e := by
  simp [DomeneshopClient.request, runFetched, h]

/-- C8 witness: a transport that always rejects with a DNS failure. -/
theorem transport_error_propagates_witness :
    (DomeneshopClient.mk "https://api.domeneshop.no/v0"
          [("Authorization", "Basic dDpz")]).request "GET" "/domains" [] none
        (fun _ => .error (.error "TypeError" "fetch failed"))
        (fun s => .error (.error "SyntaxError" s))
      = .error (.error "TypeError" "fetch failed") :=
  transport_error_propagates
    (DomeneshopClient.mk "https://api.domeneshop.no/v0" [("Authorization", "Basic dDpz")])
    "GET" "/domains" [] none (fun _ => .error (.error "TypeError" "fetch failed"))
    (fun s => .error (.error "SyntaxError" s)) (.error "TypeError" "fetch failed") rfl

end Domeneshop
